import Mathlib

/- Shallow embedding of the WHOOP backend service (src/main.py).

   The two registries (`token_store`, `state_store`) are Python dicts keyed by
   strings; they are modelled as functions from keys to optional values.
   Instants (`datetime.utcnow()`, parsed `expires_at` strings) are modelled as
   integer seconds on one global clock, so the source's datetime comparisons
   and `timedelta` arithmetic become integer comparisons and addition.
   The upstream provider is modelled by the parts of its HTTP responses the
   code actually inspects: the status code and the JSON fields read from the
   body.  Each handler is a pure function from the current registries, its
   request arguments, the clock, and the provider responses it would receive,
   to the new registries and its response value; a boolean records whether the
   handler reached its outbound network call. -/

/-- Write one key of a string-keyed map, Python `d[k] = v`. -/
def setKey {α : Type} (s : String → Option α) (k : String) (v : α) : String → Option α :=
  fun x => if x = k then some v else s x

/-- Remove one key of a string-keyed map, Python `del d[k]` / `d.pop(k)`. -/
def delKey {α : Type} (s : String → Option α) (k : String) : String → Option α :=
  fun x => if x = k then none else s x

/-- One Credential Record of the token registry, the dict written at
main.py lines 421-426, 641-646 and 710-715: keys `access_token`,
`refresh_token`, `expires_at`, `whoop_user_id`.  `refresh_token` and
`whoop_user_id` may be `None`; `expires_at` is modelled as an optional
instant (the code reads it with `.get`, so absence must be represented). -/
structure TokenData where
  access_token : String
  refresh_token : Option String
  expires_at : Option Int
  whoop_user_id : Option String
deriving DecidableEq

/-- The token registry `token_store : dict[str, dict]` (main.py line 195). -/
abbrev Store := String → Option TokenData

/-- The CSRF state registry `state_store : dict[str, str]` (main.py line 197). -/
abbrev StateStore := String → Option String

/-- Python truthiness of an optional string: `None` and `""` are falsy.
Used for `if not refresh_token` (line 387) and `if new_refresh_token`
(line 415). -/
def optStrFalsy : Option String → Bool
  | none => true
  | some s => decide (s = "")

/-- The expiry guard of `refresh_token_if_needed` (main.py line 380):
`expires_at and fromisoformat(expires_at) > utcnow() + timedelta(minutes=5)`.
An absent `expires_at` is falsy, so it fails the guard. -/
def token_still_valid (expires_at : Option Int) (now : Int) : Bool :=
  match expires_at with
  | none => false
  | some t => decide (now + 300 < t)

/-- A provider token-endpoint response as the code inspects it: the HTTP
status code, the required `access_token`, and the optional `refresh_token`
and `expires_in` JSON fields. -/
structure TokenResponse where
  status_code : Nat
  access_token : String
  refresh_token : Option String
  expires_in : Option Int
deriving DecidableEq

/-- A provider profile-endpoint response as the code inspects it: the status
code and the already-stringified `str(profile.get("user_id", ""))` value. -/
structure ProfileResponse where
  status_code : Nat
  user_id : String
deriving DecidableEq

/-- Result of one `refresh_token_if_needed` call: the token registry after
the call, the returned value (`None` or an access token), and whether the
outbound POST to the provider's token endpoint was reached. -/
structure RefreshOutcome where
  store : Store
  result : Option String
  network_call : Bool

/-- Embedding of `refresh_token_if_needed` (main.py lines 364-430).  `resp`
is the provider's response to the refresh POST, consumed only on the branch
that performs that call. -/
def refresh_token_if_needed (store : Store) (user_id : String) (now : Int)
    (resp : TokenResponse) : RefreshOutcome :=
  match store user_id with
  | none => ⟨store, none, false⟩
  | some token_data =>
    if token_still_valid token_data.expires_at now then
      ⟨store, some token_data.access_token, false⟩
    else if optStrFalsy token_data.refresh_token then
      ⟨delKey store user_id, none, false⟩
    else if resp.status_code ≠ 200 then
      ⟨delKey store user_id, none, true⟩
    else
      let expires_in := resp.expires_in.getD 3600
      let new_refresh_token :=
        if optStrFalsy resp.refresh_token then token_data.refresh_token
        else resp.refresh_token
      ⟨setKey store user_id
        { access_token := resp.access_token
          refresh_token := new_refresh_token
          expires_at := some (now + expires_in)
          whoop_user_id := token_data.whoop_user_id },
       some resp.access_token, true⟩

/-- The response body of the POST callback (`CallbackResponse`, main.py
lines 212-216): `success`, optional `whoop_user_id`, optional `connected_at`,
optional `error`. -/
structure CallbackResponse where
  success : Bool
  whoop_user_id : Option String
  connected_at : Option Int
  error : Option String
deriving DecidableEq

/-- Result of one POST-callback call: both registries plus the response. -/
structure ManualOutcome where
  token_store : Store
  state_store : StateStore
  response : CallbackResponse

/-- Embedding of `oauth_callback_manual` (main.py lines 659-723).  `tokResp`
is the provider's answer to the code exchange, `profResp` the answer to the
profile lookup; both are consumed only on the branches that reach those
calls. -/
def oauth_callback_manual (ts : Store) (ss : StateStore) (code state : String)
    (now : Int) (tokResp : TokenResponse) (profResp : ProfileResponse) : ManualOutcome :=
  match ss state with
  | none => ⟨ts, ss, ⟨false, none, none, some "invalid_state"⟩⟩
  | some user_id =>
    let ss1 := delKey ss state
    if tokResp.status_code ≠ 200 then
      ⟨ts, ss1, ⟨false, none, none, some "token_exchange_failed"⟩⟩
    else
      let expires_in := tokResp.expires_in.getD 3600
      let refresh_token := tokResp.refresh_token
      let whoop_user_id :=
        if profResp.status_code = 200 then some profResp.user_id else none
      ⟨setKey ts user_id
        { access_token := tokResp.access_token
          refresh_token := refresh_token
          expires_at := some (now + expires_in)
          whoop_user_id := whoop_user_id },
       ss1, ⟨true, whoop_user_id, some now, none⟩⟩

/-- Result of one GET-callback call: both registries plus the query
parameters of the redirect handed back to the mobile app. -/
structure RedirectOutcome where
  token_store : Store
  state_store : StateStore
  redirect_params : List (String × String)

/-- Embedding of `oauth_callback_redirect` (main.py lines 580-656).  The
`RedirectResponse` URLs are represented by their query-parameter lists. -/
def oauth_callback_redirect (ts : Store) (ss : StateStore) (code state : String)
    (now : Int) (tokResp : TokenResponse) (profResp : ProfileResponse) : RedirectOutcome :=
  match ss state with
  | none => ⟨ts, ss, [("success", "false"), ("error", "invalid_state")]⟩
  | some user_id =>
    let ss1 := delKey ss state
    if tokResp.status_code ≠ 200 then
      ⟨ts, ss1, [("success", "false"), ("error", "token_exchange_failed")]⟩
    else
      let expires_in := tokResp.expires_in.getD 3600
      let refresh_token := tokResp.refresh_token
      let whoop_user_id :=
        if profResp.status_code = 200 then some profResp.user_id else none
      ⟨setKey ts user_id
        { access_token := tokResp.access_token
          refresh_token := refresh_token
          expires_at := some (now + expires_in)
          whoop_user_id := whoop_user_id },
       ss1,
       [("success", "true"), ("user_id", user_id),
        ("whoop_user_id", if optStrFalsy whoop_user_id then "" else whoop_user_id.getD "")]⟩

/-- The fixed OAuth scope list of `get_auth_url` (main.py line 563). -/
def whoopScopes : String :=
  "read:recovery read:sleep read:workout read:cycles read:profile read:body_measurement offline"

/-- Result of one `get_auth_url` call: the state registry after the call,
the issued state token, and the query parameters of the authorization URL. -/
structure AuthUrlResult where
  state_store : StateStore
  state : String
  url_params : List (String × String)

/-- Embedding of `get_auth_url` (main.py lines 541-577).  `generate_state()`
draws fresh randomness (`secrets.token_urlsafe(32)`); the drawn token is the
`state` argument of the model.  Returns `none` for the HTTP 500 raised when
`WHOOP_CLIENT_ID` is unconfigured (empty, hence falsy). -/
def get_auth_url (client_id redirect_uri : String) (ss : StateStore)
    (user_id : String) (state : String) : Option AuthUrlResult :=
  if client_id = "" then none
  else some
    ⟨setKey ss state user_id, state,
     [("client_id", client_id), ("redirect_uri", redirect_uri),
      ("response_type", "code"), ("scope", whoopScopes), ("state", state)]⟩

/-- The response body of the status endpoint (`ConnectionStatus`, main.py
lines 221-224). -/
structure ConnectionStatus where
  connected : Bool
  whoop_user_id : Option String
  expires_at : Option Int
deriving DecidableEq

/-- Embedding of `get_connection_status` (main.py lines 726-745): a pure
read of the token registry. -/
def get_connection_status (ts : Store) (user_id : String) : ConnectionStatus :=
  match ts user_id with
  | none => ⟨false, none, none⟩
  | some token_data => ⟨true, token_data.whoop_user_id, token_data.expires_at⟩

/-- Embedding of `disconnect_whoop` (main.py lines 748-763): pops the
record; the boolean is `success` (`false` models the 404 branch). -/
def disconnect_whoop (ts : Store) (user_id : String) : Store × Bool :=
  match ts user_id with
  | none => (ts, false)
  | some _ => (delKey ts user_id, true)

/-- Gregorian leap-year test, as `datetime`'s calendar uses it. -/
def isLeapYear (y : Nat) : Bool :=
  (y % 4 = 0 && y % 100 != 0) || y % 400 = 0

/-- Length of a month, used to validate day-of-month as `strptime` does. -/
def daysInMonth (y m : Nat) : Nat :=
  if m = 2 then (if isLeapYear y then 29 else 28)
  else if m = 4 ∨ m = 6 ∨ m = 9 ∨ m = 11 then 30
  else 31

/-- Embedding of `datetime.strptime(date_str, "%Y-%m-%d")`: three dash-
separated decimal fields forming a valid calendar date in `datetime`'s
supported year range; `none` models the `ValueError` the `except` catches. -/
def strptimeDate (s : String) : Option (Nat × Nat × Nat) :=
  match s.splitOn "-" with
  | [ys, ms, ds] =>
    match ys.toNat?, ms.toNat?, ds.toNat? with
    | some y, some m, some d =>
      if 1 ≤ y ∧ y ≤ 9999 ∧ ys.length ≤ 4 ∧ ms.length ≤ 2 ∧ ds.length ≤ 2 ∧
         1 ≤ m ∧ m ≤ 12 ∧ 1 ≤ d ∧ d ≤ daysInMonth y m then
        some (y, m, d)
      else none
    | _, _, _ => none
  | _ => none

/-- Days from 1970-01-01 to the given civil date (Gregorian), the standard
days-from-civil algorithm with floor division. -/
def daysFromCivil (y m d : Int) : Int :=
  let yy := y - (if m ≤ 2 then 1 else 0)
  let era := Int.fdiv yy 400
  let yoe := yy - era * 400
  let mp := Int.fmod (m + 9) 12
  let doy := Int.fdiv (153 * mp + 2) 5 + d - 1
  let doe := yoe * 365 + Int.fdiv yoe 4 - Int.fdiv yoe 100 + doy
  era * 146097 + doe - 719468

/-- Civil date of a day count from 1970-01-01, inverse of `daysFromCivil`. -/
def civilFromDays (z0 : Int) : Int × Int × Int :=
  let z := z0 + 719468
  let era := Int.fdiv z 146097
  let doe := z - era * 146097
  let yoe := Int.fdiv (doe - Int.fdiv doe 1460 + Int.fdiv doe 36524 - Int.fdiv doe 146096) 365
  let y := yoe + era * 400
  let doy := doe - (365 * yoe + Int.fdiv yoe 4 - Int.fdiv yoe 100)
  let mp := Int.fdiv (5 * doy + 2) 153
  let d := doy - Int.fdiv (153 * mp + 2) 5 + 1
  let m := mp + (if mp < 10 then 3 else -9)
  (y + (if m ≤ 2 then 1 else 0), m, d)

/-- Zero-pad a number to two digits, as `strftime` field formatting does. -/
def pad2 (n : Int) : String :=
  if n < 10 then "0" ++ toString n else toString n

/-- Zero-pad a year to four digits, as `strftime("%Y")` does. -/
def pad4 (n : Int) : String :=
  if n < 10 then "000" ++ toString n
  else if n < 100 then "00" ++ toString n
  else if n < 1000 then "0" ++ toString n
  else toString n

/-- Embedding of `strftime("%Y-%m-%dT%H:%M:%S.000Z")` on a UTC instant. -/
def formatTimestamp (t : Int) : String :=
  let days := Int.fdiv t 86400
  let secs := Int.fmod t 86400
  let ymd := civilFromDays days
  let hh := Int.fdiv secs 3600
  let mi := Int.fdiv (Int.fmod secs 3600) 60
  let ss := Int.fmod secs 60
  pad4 ymd.1 ++ "-" ++ pad2 ymd.2.1 ++ "-" ++ pad2 ymd.2.2 ++ "T" ++
    pad2 hh ++ ":" ++ pad2 mi ++ ":" ++ pad2 ss ++ ".000Z"

/-- Embedding of `convert_local_date_to_utc` (main.py lines 127-160).  The
`pytz` zone database is modelled as a table of zone names to fixed UTC
offsets in seconds; `pytz.timezone` on an unlisted name raises, which the
`except` turns into the as-if-UTC fallback, as does a `strptime` failure. -/
def convert_local_date_to_utc (zones : List (String × Int)) (date_str tz_name : String)
    (end_of_day : Bool) : String :=
  let attempt : Option String := do
    let off ← zones.lookup tz_name
    let ymd ← strptimeDate date_str
    let tod : Int := if end_of_day then 23 * 3600 + 59 * 60 + 59 else 0
    let localSecs := 86400 * daysFromCivil ymd.1 ymd.2.1 ymd.2.2 + tod
    pure (formatTimestamp (localSecs - off))
  match attempt with
  | some s => s
  | none =>
    if end_of_day then date_str ++ "T23:59:59.000Z"
    else date_str ++ "T00:00:00.000Z"

/-- Embedding of `get_date_range_for_days` (main.py lines 163-190): on a
known zone, end is now and start is local midnight `days` days back; on an
unknown zone the `except` falls back to the same window computed in UTC
without midnight truncation. -/
def get_date_range_for_days (zones : List (String × Int)) (days : Int)
    (tz_name : String) (now : Int) : String × String :=
  match zones.lookup tz_name with
  | some off =>
    let nowLocal := now + off
    let endUtc := formatTimestamp now
    let startLocalMidnight := 86400 * Int.fdiv (nowLocal - days * 86400) 86400
    (formatTimestamp (startLocalMidnight - off), endUtc)
  | none =>
    (formatTimestamp (now - days * 86400), formatTimestamp now)

/-- Whole-service state: both registries (main.py lines 195-197). -/
structure SysState where
  token_store : Store
  state_store : StateStore

/-- One inbound request that touches the registries, with the clock value
and the provider responses its handler would observe. -/
inductive Op where
  | opRefresh (user_id : String) (now : Int) (resp : TokenResponse)
  | opAuthUrl (client_id redirect_uri user_id state : String)
  | opCallbackManual (code state : String) (now : Int)
      (tokResp : TokenResponse) (profResp : ProfileResponse)
  | opCallbackRedirect (code state : String) (now : Int)
      (tokResp : TokenResponse) (profResp : ProfileResponse)
  | opDisconnect (user_id : String)
  | opStatus (user_id : String)

/-- Registry effect of one request, dispatching to the handler embeddings. -/
def stepOp (s : SysState) (op : Op) : SysState :=
  match op with
  | .opRefresh user_id now resp =>
    ⟨(refresh_token_if_needed s.token_store user_id now resp).store, s.state_store⟩
  | .opAuthUrl client_id redirect_uri user_id state =>
    match get_auth_url client_id redirect_uri s.state_store user_id state with
    | none => s
    | some r => ⟨s.token_store, r.state_store⟩
  | .opCallbackManual code state now tokResp profResp =>
    let o := oauth_callback_manual s.token_store s.state_store code state now tokResp profResp
    ⟨o.token_store, o.state_store⟩
  | .opCallbackRedirect code state now tokResp profResp =>
    let o := oauth_callback_redirect s.token_store s.state_store code state now tokResp profResp
    ⟨o.token_store, o.state_store⟩
  | .opDisconnect user_id => ⟨(disconnect_whoop s.token_store user_id).1, s.state_store⟩
  | .opStatus _ => s

/-- Registry effect of a sequence of requests, first to last. -/
def runOps (s : SysState) : List Op → SysState
  | [] => s
  | op :: rest => runOps (stepOp s op) rest

/-- An operation that can complete an authorization (a callback handler). -/
def Op.isCompleteAuthorization : Op → Bool
  | .opCallbackManual .. => true
  | .opCallbackRedirect .. => true
  | _ => false

/- Helper lemmas about the map primitives and the refresh policy. -/

theorem setKey_same {α : Type} (s : String → Option α) (k : String) (v : α) :
    setKey s k v k = some v := by
  simp [setKey]

theorem setKey_other {α : Type} (s : String → Option α) (k x : String) (v : α)
    (h : x ≠ k) : setKey s k v x = s x := by
  simp [setKey, h]

theorem delKey_same {α : Type} (s : String → Option α) (k : String) :
    delKey s k k = none := by
  simp [delKey]

theorem delKey_other {α : Type} (s : String → Option α) (k x : String)
    (h : x ≠ k) : delKey s k x = s x := by
  simp [delKey, h]

/-- A refresh call for an absent user is a no-op returning `None`. -/
theorem refresh_absent (store : Store) (user_id : String) (now : Int)
    (resp : TokenResponse) (h : store user_id = none) :
    refresh_token_if_needed store user_id now resp = ⟨store, none, false⟩ := by
  simp [refresh_token_if_needed, h]

/-- A refresh call touches no key other than the one it was called for. -/
theorem refresh_frame (store : Store) (user_id : String) (now : Int)
    (resp : TokenResponse) (x : String) (hx : x ≠ user_id) :
    (refresh_token_if_needed store user_id now resp).store x = store x := by
  unfold refresh_token_if_needed
  cases h : store user_id with
  | none => simp
  | some token_data =>
    by_cases h1 : token_still_valid token_data.expires_at now
    · simp [h1]
    · by_cases h2 : optStrFalsy token_data.refresh_token
      · simp [h1, h2, delKey_other _ _ _ hx]
      · by_cases h3 : resp.status_code = 200
        · simp [h1, h2, h3, setKey_other _ _ _ _ hx]
        · simp [h1, h2, h3, delKey_other _ _ _ hx]

/-- No request other than a completed authorization can (re)create a
Credential Record: absence of a user's record is preserved. -/
theorem stepOp_preserves_absent (s : SysState) (op : Op) (user_id : String)
    (h : s.token_store user_id = none)
    (hop : op.isCompleteAuthorization = false) :
    (stepOp s op).token_store user_id = none := by
  cases op with
  | opRefresh uid' now resp =>
    by_cases hu : user_id = uid'
    · subst hu
      simp [stepOp, refresh_absent _ _ _ _ h, h]
    · simpa [stepOp, refresh_frame _ _ _ _ _ hu] using h
  | opAuthUrl client_id redirect_uri uid' state =>
    cases hg : get_auth_url client_id redirect_uri s.state_store uid' state with
    | none => simpa [stepOp, hg] using h
    | some r => simpa [stepOp, hg] using h
  | opCallbackManual code state now tokResp profResp => simp [Op.isCompleteAuthorization] at hop
  | opCallbackRedirect code state now tokResp profResp => simp [Op.isCompleteAuthorization] at hop
  | opDisconnect uid' =>
    cases hts : s.token_store uid' with
    | none => simpa [stepOp, disconnect_whoop, hts] using h
    | some td =>
      by_cases hu : user_id = uid'
      · subst hu
        simp [stepOp, disconnect_whoop, hts, delKey_same]
      · simpa [stepOp, disconnect_whoop, hts, delKey_other _ _ _ hu] using h
  | opStatus uid' => simpa [stepOp] using h

/-- Absence of a user's record is preserved across any request sequence
containing no completed authorization. -/
theorem runOps_preserves_absent (ops : List Op) (s : SysState) (user_id : String)
    (h : s.token_store user_id = none)
    (hops : ∀ op ∈ ops, op.isCompleteAuthorization = false) :
    (runOps s ops).token_store user_id = none := by
  induction ops generalizing s with
  | nil => simpa [runOps] using h
  | cons op rest ih =>
    simp only [runOps]
    exact ih _ (stepOp_preserves_absent s op user_id h (hops op (by simp)))
      (fun o ho => hops o (by simp [ho]))

/-- A non-falsy optional string is a non-empty string. -/
theorem optStrFalsy_false {o : Option String} (h : optStrFalsy o = false) :
    ∃ s, o = some s ∧ s ≠ "" := by
  cases o with
  | none => simp [optStrFalsy] at h
  | some s => exact ⟨s, rfl, by simpa [optStrFalsy] using h⟩

/- Concrete fixtures used by the witnesses below. -/

/-- A record for user `u1`: token `AT1`, refresh token `RT1`, expiring at
instant 10000. -/
def tdFresh : TokenData := ⟨"AT1", some "RT1", some 10000, some "999"⟩

/-- A record for user `u1` with no refresh token. -/
def tdNoRT : TokenData := ⟨"AT1", none, some 10000, some "999"⟩

/-- A registry holding `tdFresh` for `u1` only. -/
def storeOne : Store := fun x => if x = "u1" then some tdFresh else none

/-- A registry holding `tdNoRT` for `u1` only. -/
def storeNoRT : Store := fun x => if x = "u1" then some tdNoRT else none

/-- An empty state registry. -/
def ssEmpty : StateStore := fun _ => none

/-- A state registry with one pending entry `S1 -> u1`. -/
def ssOne : StateStore := fun x => if x = "S1" then some "u1" else none

/-- A successful provider response carrying a rotated refresh token. -/
def respOk : TokenResponse := ⟨200, "AT2", some "RT2", some 60⟩

/-- A successful provider response omitting `refresh_token` and `expires_in`. -/
def respOkBare : TokenResponse := ⟨200, "AT2", none, none⟩

/-- A failed provider response (HTTP 400). -/
def respBad : TokenResponse := ⟨400, "", none, none⟩

/-- A successful profile response resolving remote user `999`. -/
def profOk : ProfileResponse := ⟨200, "999"⟩

/-- C4: for every user ID whose stored Credential Record has `expires_at`
strictly more than 5 minutes after the current time, `refresh_token_if_needed`
returns the stored access token, makes no network call, and leaves the token
registry unchanged. -/
theorem valid_token_no_network_call
    (store : Store) (user_id : String) (now t : Int) (resp : TokenResponse) (td : TokenData)
    (hfound : store user_id = some td)
    (hexp : td.expires_at = some t)
    (hfresh : now + 300 < t) :
    refresh_token_if_needed store user_id now resp =
      ⟨store, some td.access_token, false⟩ := by
  simp [refresh_token_if_needed, hfound, token_still_valid, hexp, hfresh]

/-- Witness for C4: user `u1` at instant 9699 with expiry 10000. -/
theorem valid_token_no_network_call_witness :
    storeOne "u1" = some tdFresh ∧
    tdFresh.expires_at = some 10000 ∧
    (9699 : Int) + 300 < 10000 ∧
    refresh_token_if_needed storeOne "u1" 9699 respBad =
      ⟨storeOne, some tdFresh.access_token, false⟩ :=
  ⟨by decide, by decide, by decide,
   valid_token_no_network_call storeOne "u1" 9699 10000 respBad tdFresh
     (by decide) (by decide) (by decide)⟩

/-- C5: for every user ID whose stored Credential Record needs refresh and
has no (usable) refresh token, `refresh_token_if_needed` deletes the record
and returns `None`, without reaching the network call. -/
theorem expired_no_refresh_token_deletes
    (store : Store) (user_id : String) (now : Int) (resp : TokenResponse) (td : TokenData)
    (hfound : store user_id = some td)
    (hexp : token_still_valid td.expires_at now = false)
    (hrt : optStrFalsy td.refresh_token = true) :
    (refresh_token_if_needed store user_id now resp).store user_id = none ∧
    (refresh_token_if_needed store user_id now resp).result = none ∧
    (refresh_token_if_needed store user_id now resp).network_call = false := by
  refine ⟨?_, ?_, ?_⟩ <;> simp [refresh_token_if_needed, hfound, hexp, hrt, delKey_same]

/-- Witness for C5: user `u1` at instant 9700 (within the 5-minute buffer of
expiry 10000) with no refresh token. -/
theorem expired_no_refresh_token_deletes_witness :
    storeNoRT "u1" = some tdNoRT ∧
    token_still_valid tdNoRT.expires_at 9700 = false ∧
    optStrFalsy tdNoRT.refresh_token = true ∧
    ((refresh_token_if_needed storeNoRT "u1" 9700 respBad).store "u1" = none ∧
     (refresh_token_if_needed storeNoRT "u1" 9700 respBad).result = none ∧
     (refresh_token_if_needed storeNoRT "u1" 9700 respBad).network_call = false) :=
  ⟨by decide, by decide, by decide,
   expired_no_refresh_token_deletes storeNoRT "u1" 9700 respBad tdNoRT
     (by decide) (by decide) (by decide)⟩

/-- C1: for every user whose record is stored and whose refresh succeeds,
the overwritten record's `refresh_token` is never absent: it is the
response's refresh token when a (non-empty) one is present, and otherwise
the refresh token held before the refresh. -/
theorem refresh_success_keeps_refresh_token
    (store : Store) (user_id : String) (now : Int) (resp : TokenResponse) (td : TokenData)
    (hfound : store user_id = some td)
    (hexp : token_still_valid td.expires_at now = false)
    (hrt : optStrFalsy td.refresh_token = false)
    (hok : resp.status_code = 200) :
    ∃ td', (refresh_token_if_needed store user_id now resp).store user_id = some td' ∧
      td'.refresh_token ≠ none ∧
      (∀ rt, resp.refresh_token = some rt → rt ≠ "" → td'.refresh_token = some rt) ∧
      (resp.refresh_token = none → td'.refresh_token = td.refresh_token) := by
  have hmain : (refresh_token_if_needed store user_id now resp).store user_id =
      some { access_token := resp.access_token
             refresh_token :=
               if optStrFalsy resp.refresh_token then td.refresh_token else resp.refresh_token
             expires_at := some (now + resp.expires_in.getD 3600)
             whoop_user_id := td.whoop_user_id } := by
    simp [refresh_token_if_needed, hfound, hexp, hrt, hok, setKey_same]
  refine ⟨_, hmain, ?_, ?_, ?_⟩
  · by_cases hf : optStrFalsy resp.refresh_token
    · obtain ⟨s, hs, _⟩ := optStrFalsy_false hrt
      simp [hf, hs]
    · obtain ⟨s, hs, hne⟩ := optStrFalsy_false (by simpa using hf)
      simp [hs, optStrFalsy, hne]
  · intro rt hrt' hne
    simp [hrt', optStrFalsy, hne]
  · intro hnone
    simp [hnone, optStrFalsy]

/-- Witness for C1: a refresh at instant 9700 whose response omits the
refresh token; the stored record keeps the prior token `RT1`. -/
theorem refresh_success_keeps_refresh_token_witness :
    storeOne "u1" = some tdFresh ∧
    token_still_valid tdFresh.expires_at 9700 = false ∧
    optStrFalsy tdFresh.refresh_token = false ∧
    respOkBare.status_code = 200 ∧
    (∃ td', (refresh_token_if_needed storeOne "u1" 9700 respOkBare).store "u1" = some td' ∧
      td'.refresh_token ≠ none ∧
      (∀ rt, respOkBare.refresh_token = some rt → rt ≠ "" → td'.refresh_token = some rt) ∧
      (respOkBare.refresh_token = none → td'.refresh_token = tdFresh.refresh_token)) :=
  ⟨by decide, by decide, by decide, by decide,
   refresh_success_keeps_refresh_token storeOne "u1" 9700 respOkBare tdFresh
     (by decide) (by decide) (by decide) (by decide)⟩

/-- C7: a successful refresh overwrites the record keeping `whoop_user_id`
unchanged, and touches no other user's record. -/
theorem refresh_success_preserves_remote_user
    (store : Store) (user_id : String) (now : Int) (resp : TokenResponse) (td : TokenData)
    (hfound : store user_id = some td)
    (hexp : token_still_valid td.expires_at now = false)
    (hrt : optStrFalsy td.refresh_token = false)
    (hok : resp.status_code = 200) :
    ∃ td', (refresh_token_if_needed store user_id now resp).store user_id = some td' ∧
      td'.whoop_user_id = td.whoop_user_id ∧
      ∀ x, x ≠ user_id → (refresh_token_if_needed store user_id now resp).store x = store x := by
  have hmain : (refresh_token_if_needed store user_id now resp).store user_id =
      some { access_token := resp.access_token
             refresh_token :=
               if optStrFalsy resp.refresh_token then td.refresh_token else resp.refresh_token
             expires_at := some (now + resp.expires_in.getD 3600)
             whoop_user_id := td.whoop_user_id } := by
    simp [refresh_token_if_needed, hfound, hexp, hrt, hok, setKey_same]
  exact ⟨_, hmain, rfl, fun x hx => refresh_frame store user_id now resp x hx⟩

/-- Witness for C7: the refresh of C1's scenario with a rotated token;
`whoop_user_id` stays `999` and user `u2` is untouched. -/
theorem refresh_success_preserves_remote_user_witness :
    storeOne "u1" = some tdFresh ∧
    token_still_valid tdFresh.expires_at 9700 = false ∧
    optStrFalsy tdFresh.refresh_token = false ∧
    respOk.status_code = 200 ∧
    (∃ td', (refresh_token_if_needed storeOne "u1" 9700 respOk).store "u1" = some td' ∧
      td'.whoop_user_id = tdFresh.whoop_user_id ∧
      ∀ x, x ≠ "u1" → (refresh_token_if_needed storeOne "u1" 9700 respOk).store x = storeOne x) :=
  ⟨by decide, by decide, by decide, by decide,
   refresh_success_preserves_remote_user storeOne "u1" 9700 respOk tdFresh
     (by decide) (by decide) (by decide) (by decide)⟩

/-- C2: a refresh whose provider response is non-success deletes the user's
record and returns `None`; afterwards, across any request sequence with no
completed authorization, the record stays absent and every further
`refresh_token_if_needed` for that user returns `None`. -/
theorem refresh_failure_then_not_connected
    (store : Store) (ss : StateStore) (user_id : String) (now : Int)
    (resp : TokenResponse) (td : TokenData)
    (hfound : store user_id = some td)
    (hexp : token_still_valid td.expires_at now = false)
    (hrt : optStrFalsy td.refresh_token = false)
    (hfail : resp.status_code ≠ 200) :
    (refresh_token_if_needed store user_id now resp).result = none ∧
    (refresh_token_if_needed store user_id now resp).store user_id = none ∧
    ∀ ops : List Op, (∀ op ∈ ops, op.isCompleteAuthorization = false) →
      (runOps ⟨(refresh_token_if_needed store user_id now resp).store, ss⟩ ops).token_store user_id = none ∧
      ∀ now' resp',
        (refresh_token_if_needed
          (runOps ⟨(refresh_token_if_needed store user_id now resp).store, ss⟩ ops).token_store
          user_id now' resp').result = none := by
  have hdel : (refresh_token_if_needed store user_id now resp).store user_id = none := by
    simp [refresh_token_if_needed, hfound, hexp, hrt, hfail, delKey_same]
  have hres : (refresh_token_if_needed store user_id now resp).result = none := by
    simp [refresh_token_if_needed, hfound, hexp, hrt, hfail]
  refine ⟨hres, hdel, ?_⟩
  intro ops hops
  have habs := runOps_preserves_absent ops ⟨(refresh_token_if_needed store user_id now resp).store, ss⟩ user_id hdel hops
  refine ⟨habs, fun now' resp' => ?_⟩
  rw [refresh_absent _ _ _ _ habs]

/-- Witness for C2: a 400 refresh response for `u1` at instant 9700, then a
status poll and a foreign refresh; `u1` stays disconnected. -/
theorem refresh_failure_then_not_connected_witness :
    storeOne "u1" = some tdFresh ∧
    token_still_valid tdFresh.expires_at 9700 = false ∧
    optStrFalsy tdFresh.refresh_token = false ∧
    respBad.status_code ≠ 200 ∧
    ((refresh_token_if_needed storeOne "u1" 9700 respBad).result = none ∧
     (refresh_token_if_needed storeOne "u1" 9700 respBad).store "u1" = none ∧
     ∀ ops : List Op, (∀ op ∈ ops, op.isCompleteAuthorization = false) →
       (runOps ⟨(refresh_token_if_needed storeOne "u1" 9700 respBad).store, ssEmpty⟩ ops).token_store "u1" = none ∧
       ∀ now' resp',
         (refresh_token_if_needed
           (runOps ⟨(refresh_token_if_needed storeOne "u1" 9700 respBad).store, ssEmpty⟩ ops).token_store
           "u1" now' resp').result = none) :=
  ⟨by decide, by decide, by decide, by decide,
   refresh_failure_then_not_connected storeOne ssEmpty "u1" 9700 respBad tdFresh
     (by decide) (by decide) (by decide) (by decide)⟩

/-- C3: a callback (POST or GET) whose state token is not in the state
registry returns the invalid-state error and leaves both registries exactly
as they were. -/
theorem callback_invalid_state_no_mutation
    (ts : Store) (ss : StateStore) (code state : String) (now : Int)
    (tokResp : TokenResponse) (profResp : ProfileResponse)
    (habsent : ss state = none) :
    oauth_callback_manual ts ss code state now tokResp profResp =
      ⟨ts, ss, ⟨false, none, none, some "invalid_state"⟩⟩ ∧
    oauth_callback_redirect ts ss code state now tokResp profResp =
      ⟨ts, ss, [("success", "false"), ("error", "invalid_state")]⟩ := by
  constructor <;> simp [oauth_callback_manual, oauth_callback_redirect, habsent]

/-- Witness for C3: the unknown state `S9` against a registry holding only
`S1`; nothing is written. -/
theorem callback_invalid_state_no_mutation_witness :
    ssOne "S9" = none ∧
    (oauth_callback_manual storeOne ssOne "abc" "S9" 0 respOk profOk =
       ⟨storeOne, ssOne, ⟨false, none, none, some "invalid_state"⟩⟩ ∧
     oauth_callback_redirect storeOne ssOne "abc" "S9" 0 respOk profOk =
       ⟨storeOne, ssOne, [("success", "false"), ("error", "invalid_state")]⟩) :=
  ⟨by decide,
   callback_invalid_state_no_mutation storeOne ssOne "abc" "S9" 0 respOk profOk (by decide)⟩

/-- First `get_auth_url` call of the C6 scenario: fresh token `S1`. -/
def c6FirstCall : Option AuthUrlResult :=
  get_auth_url "client-abc" "https://example.org/cb" ssEmpty "u1" "S1"

/-- State registry after the second `get_auth_url` call of the C6 scenario:
fresh token `S2` drawn after `S1`. -/
def c6SecondStore : Option StateStore :=
  match c6FirstCall with
  | none => none
  | some r1 =>
    match get_auth_url "client-abc" "https://example.org/cb" r1.state_store "u1" "S2" with
    | none => none
    | some r2 => some r2.state_store

/-- C6 counterexample: two sequential `get_auth_url` calls for `u1` with
distinct generated tokens `S1` then `S2` leave BOTH tokens in the state
registry, so it is false that only the most recently issued one remains. -/
theorem get_auth_url_old_state_remains :
    ("S1" : String) ≠ "S2" ∧
    c6SecondStore.map (fun ss => (ss "S1", ss "S2")) = some (some "u1", some "u1") := by
  exact ⟨by decide, rfl⟩

/-- C6 as amended: two sequential `get_auth_url` calls for the same user ID
whose generated state tokens are distinct (the generator draws 256-bit
random tokens) register both: afterwards each of the two tokens maps to the
user ID, the earlier one remaining honorable until consumed. -/
theorem get_auth_url_registers_both_states
    (client_id redirect_uri : String) (ss : StateStore) (user_id s1 s2 : String)
    (hcfg : client_id ≠ "") (hdistinct : s1 ≠ s2) :
    ∃ r1 r2, get_auth_url client_id redirect_uri ss user_id s1 = some r1 ∧
      r1.state = s1 ∧
      get_auth_url client_id redirect_uri r1.state_store user_id s2 = some r2 ∧
      r2.state = s2 ∧
      r2.state_store s1 = some user_id ∧
      r2.state_store s2 = some user_id := by
  refine ⟨⟨setKey ss s1 user_id, s1,
           [("client_id", client_id), ("redirect_uri", redirect_uri),
            ("response_type", "code"), ("scope", whoopScopes), ("state", s1)]⟩,
          ⟨setKey (setKey ss s1 user_id) s2 user_id, s2,
           [("client_id", client_id), ("redirect_uri", redirect_uri),
            ("response_type", "code"), ("scope", whoopScopes), ("state", s2)]⟩,
          ?_, rfl, ?_, rfl, ?_, ?_⟩
  · simp [get_auth_url, hcfg]
  · simp [get_auth_url, hcfg]
  · show setKey (setKey ss s1 user_id) s2 user_id s1 = some user_id
    rw [setKey_other _ _ _ _ hdistinct, setKey_same]
  · show setKey (setKey ss s1 user_id) s2 user_id s2 = some user_id
    exact setKey_same _ _ _

/-- Witness for the amended C6 at the concrete tokens `S1`, `S2`. -/
theorem get_auth_url_registers_both_states_witness :
    ("client-abc" : String) ≠ "" ∧
    ("S1" : String) ≠ "S2" ∧
    (∃ r1 r2, get_auth_url "client-abc" "https://example.org/cb" ssEmpty "u1" "S1" = some r1 ∧
      r1.state = "S1" ∧
      get_auth_url "client-abc" "https://example.org/cb" r1.state_store "u1" "S2" = some r2 ∧
      r2.state = "S2" ∧
      r2.state_store "S1" = some "u1" ∧
      r2.state_store "S2" = some "u1") :=
  ⟨by decide, by decide,
   get_auth_url_registers_both_states "client-abc" "https://example.org/cb" ssEmpty "u1" "S1" "S2"
     (by decide) (by decide)⟩

/-- C10: the status endpoint reports `connected` exactly when a record
exists, whatever its expiry, and its request leaves the whole service state
untouched (no refresh, no registry mutation). -/
theorem connection_status_reports_record_existence (s : SysState) (user_id : String) :
    (get_connection_status s.token_store user_id).connected = (s.token_store user_id).isSome ∧
    stepOp s (Op.opStatus user_id) = s := by
  constructor
  · cases h : s.token_store user_id <;> simp [get_connection_status, h]
  · rfl

/-- C9: a provider token response that omits `expires_in` leads all three
record writers (the refresh and both callback handlers) to store
`expires_at = now + 3600`, never an absent expiry. -/
theorem default_expires_in_3600
    (store ts : Store) (ss : StateStore) (user_id uid2 code state : String)
    (now : Int) (resp tokResp : TokenResponse) (profResp : ProfileResponse) (td : TokenData) :
    (store user_id = some td → token_still_valid td.expires_at now = false →
      optStrFalsy td.refresh_token = false → resp.status_code = 200 →
      resp.expires_in = none →
      ∃ td', (refresh_token_if_needed store user_id now resp).store user_id = some td' ∧
        td'.expires_at = some (now + 3600)) ∧
    (ss state = some uid2 → tokResp.status_code = 200 → tokResp.expires_in = none →
      ∃ td', (oauth_callback_manual ts ss code state now tokResp profResp).token_store uid2 = some td' ∧
        td'.expires_at = some (now + 3600)) ∧
    (ss state = some uid2 → tokResp.status_code = 200 → tokResp.expires_in = none →
      ∃ td', (oauth_callback_redirect ts ss code state now tokResp profResp).token_store uid2 = some td' ∧
        td'.expires_at = some (now + 3600)) := by
  refine ⟨?_, ?_, ?_⟩
  · intro hfound hexp hrt hok hin
    refine ⟨{ access_token := resp.access_token
              refresh_token :=
                if optStrFalsy resp.refresh_token then td.refresh_token else resp.refresh_token
              expires_at := some (now + resp.expires_in.getD 3600)
              whoop_user_id := td.whoop_user_id }, ?_, ?_⟩
    · simp [refresh_token_if_needed, hfound, hexp, hrt, hok, setKey_same]
    · simp [hin]
  · intro hss hok hin
    refine ⟨{ access_token := tokResp.access_token
              refresh_token := tokResp.refresh_token
              expires_at := some (now + tokResp.expires_in.getD 3600)
              whoop_user_id :=
                if profResp.status_code = 200 then some profResp.user_id else none }, ?_, ?_⟩
    · simp [oauth_callback_manual, hss, hok, setKey_same]
    · simp [hin]
  · intro hss hok hin
    refine ⟨{ access_token := tokResp.access_token
              refresh_token := tokResp.refresh_token
              expires_at := some (now + tokResp.expires_in.getD 3600)
              whoop_user_id :=
                if profResp.status_code = 200 then some profResp.user_id else none }, ?_, ?_⟩
    · simp [oauth_callback_redirect, hss, hok, setKey_same]
    · simp [hin]

/-- Witness for C9: an `expires_in`-less success response at instant 9700
through the refresh, and at instant 0 through both callbacks for the pending
state `S1`. -/
theorem default_expires_in_3600_witness :
    storeOne "u1" = some tdFresh ∧
    token_still_valid tdFresh.expires_at 9700 = false ∧
    optStrFalsy tdFresh.refresh_token = false ∧
    respOkBare.status_code = 200 ∧
    respOkBare.expires_in = none ∧
    ssOne "S1" = some "u1" ∧
    ((∃ td', (refresh_token_if_needed storeOne "u1" 9700 respOkBare).store "u1" = some td' ∧
       td'.expires_at = some (9700 + 3600)) ∧
     (∃ td', (oauth_callback_manual storeOne ssOne "abc" "S1" 0 respOkBare profOk).token_store "u1" = some td' ∧
       td'.expires_at = some (0 + 3600)) ∧
     (∃ td', (oauth_callback_redirect storeOne ssOne "abc" "S1" 0 respOkBare profOk).token_store "u1" = some td' ∧
       td'.expires_at = some (0 + 3600))) := by
  refine ⟨by decide, by decide, by decide, by decide, by decide, by decide, ?_, ?_, ?_⟩
  · exact (default_expires_in_3600 storeOne storeOne ssOne "u1" "u1" "abc" "S1" 9700
      respOkBare respOkBare profOk tdFresh).1 (by decide) (by decide) (by decide)
      (by decide) (by decide)
  · exact (default_expires_in_3600 storeOne storeOne ssOne "u1" "u1" "abc" "S1" 0
      respOkBare respOkBare profOk tdFresh).2.1 (by decide) (by decide) (by decide)
  · exact (default_expires_in_3600 storeOne storeOne ssOne "u1" "u1" "abc" "S1" 0
      respOkBare respOkBare profOk tdFresh).2.2 (by decide) (by decide) (by decide)

/-- C8: the date utilities never fail: an unknown zone name (or an
unparsable date) makes `convert_local_date_to_utc` return the input date
suffixed as already-UTC start/end of day, and makes `get_date_range_for_days`
compute the window in UTC. -/
theorem date_conversion_fallback
    (zones : List (String × Int)) (date_str tz_name : String) (days now : Int)
    (hbad : zones.lookup tz_name = none ∨ strptimeDate date_str = none) :
    convert_local_date_to_utc zones date_str tz_name true = date_str ++ "T23:59:59.000Z" ∧
    convert_local_date_to_utc zones date_str tz_name false = date_str ++ "T00:00:00.000Z" ∧
    (zones.lookup tz_name = none →
      get_date_range_for_days zones days tz_name now =
        (formatTimestamp (now - days * 86400), formatTimestamp now)) := by
  refine ⟨?_, ?_, fun hz => by simp [get_date_range_for_days, hz]⟩ <;>
  · rcases hbad with hz | hd
    · simp [convert_local_date_to_utc, hz]
    · cases hl : zones.lookup tz_name with
      | none => simp [convert_local_date_to_utc, hl]
      | some off => simp [convert_local_date_to_utc, hl, hd]

/-- Witness for C8: the unknown zone `Mars/Olympus` against a table holding
only `Australia/Sydney`, on the date `2026-01-22` at instant 9700. -/
theorem date_conversion_fallback_witness :
    ([("Australia/Sydney", (39600 : Int))].lookup "Mars/Olympus" = none ∨
      strptimeDate "2026-01-22" = none) ∧
    (convert_local_date_to_utc [("Australia/Sydney", 39600)] "2026-01-22" "Mars/Olympus" true =
       "2026-01-22" ++ "T23:59:59.000Z" ∧
     convert_local_date_to_utc [("Australia/Sydney", 39600)] "2026-01-22" "Mars/Olympus" false =
       "2026-01-22" ++ "T00:00:00.000Z" ∧
     ([("Australia/Sydney", (39600 : Int))].lookup "Mars/Olympus" = none →
       get_date_range_for_days [("Australia/Sydney", 39600)] 7 "Mars/Olympus" 9700 =
         (formatTimestamp (9700 - 7 * 86400), formatTimestamp 9700))) :=
  ⟨Or.inl (by decide),
   date_conversion_fallback [("Australia/Sydney", 39600)] "2026-01-22" "Mars/Olympus" 7 9700
     (Or.inl (by decide))⟩
